import Mathlib

/-!
Shallow embedding of the WebViewToolkit GPU resource bridge
(src/WebViewToolkitPlugin/src/RenderAPI/RenderAPI_D3D11.cpp,
src/WebViewToolkitPlugin/src/RenderAPI/RenderAPI_D3D12.cpp and
src/WebViewToolkitPlugin/src/WebViewCapture.cpp).

Native GPU pointers are modelled as natural numbers, with 0 playing the
role of the null pointer.  External calls that can fail (texture
allocation, device creation, wrapping, mapping) are driven by explicit
boolean oracles packaged in environment records.  GPU-side work performed
by a copy operation is recorded as a trace of `GpuOp` values.
-/

namespace WebViewToolkit

/-- `Result` codes, from include/WebViewToolkit/Types.h. -/
inductive Result where
  | Success
  | ErrorUnknown
  | ErrorInvalidHandle
  | ErrorNotInitialized
  | ErrorAlreadyInitialized
  | ErrorUnsupportedGraphicsAPI
  | ErrorDeviceCreationFailed
  | ErrorTextureCreationFailed
  | ErrorResourceBarrierFailed
  | ErrorWebViewCreationFailed
  | ErrorCompositionFailed
  | ErrorNavigationFailed
  deriving DecidableEq, Repr

/-- A texture descriptor: the observable part (D3D11_TEXTURE2D_DESC /
D3D12_RESOURCE_DESC) driving the control flow of the embedded code. -/
structure TexDesc where
  width : Nat
  height : Nat
  deriving DecidableEq, Repr

/-- One unit of GPU work issued by a copy operation (trace element). -/
inductive GpuOp where
  | copyResource
  | copyRow (srcRow : Nat) (dstRow : Nat)
  | createWrapped (id : Nat)
  | createStaging
  | copyToStaging
  | mapStaging
  | acquireWrapped
  | updateRow (srcRow : Nat) (dstRow : Nat)
  | updateWhole
  | unmapStaging
  | releaseWrapped
  | flush
  deriving DecidableEq, Repr

/-- Association-list lookup by key (std::unordered_map::find). -/
def lookupKey {α : Type} (k : Nat) : List (Nat × α) → Option α
  | [] => none
  | (k2, v) :: rest => if k2 = k then some v else lookupKey k rest

/-- Association-list erase by key (std::unordered_map::erase). -/
def eraseKey {α : Type} (k : Nat) : List (Nat × α) → List (Nat × α)
  | [] => []
  | (k2, v) :: rest =>
    if k2 = k then eraseKey k rest else (k2, v) :: eraseKey k rest

/-- Association-list insert-or-assign (std::unordered_map::operator[]
followed by assignment). -/
def insertKey {α : Type} (k : Nat) (v : α) (l : List (Nat × α)) : List (Nat × α) :=
  (k, v) :: eraseKey k l

/-- Keys of the association list are pairwise distinct (the defining
property of a map keyed by resource identity). -/
def KeysNodup {α : Type} (l : List (Nat × α)) : Prop :=
  (l.map Prod.fst).Nodup

/-! ## Legacy backend: RenderAPI_D3D11 -/

/-- State of the legacy backend (RenderAPI_D3D11).  `textures` is the heap
of live shared textures created by this backend, keyed by their native
pointer; `nextHandle` supplies fresh, never-reused native pointers. -/
structure D3D11State where
  device : Bool
  context : Bool
  compositionDevice : Bool
  textures : List (Nat × TexDesc)
  nextHandle : Nat
  deriving DecidableEq, Repr

/-- Fresh legacy-backend state. -/
def D3D11State.init : D3D11State :=
  { device := false, context := false, compositionDevice := false,
    textures := [], nextHandle := 1 }

/-- RenderAPI_D3D11::CreateSharedTexture.  `outValid` models whether the
caller passed a non-null `outNativePtr`; `allocOk` is the oracle for the
`CreateTexture2D` call.  Returns (result, handle written to the out slot,
new state). -/
def d3d11CreateSharedTexture (st : D3D11State) (w h : Nat) (outValid : Bool)
    (allocOk : Bool) : Result × Option Nat × D3D11State :=
  if st.device = false ∨ outValid = false then
    (Result.ErrorNotInitialized, none, st)
  else if allocOk = false then
    (Result.ErrorTextureCreationFailed, none, st)
  else
    (Result.Success, some st.nextHandle,
      { st with textures := insertKey st.nextHandle ⟨w, h⟩ st.textures,
                nextHandle := st.nextHandle + 1 })

/-- RenderAPI_D3D11::DestroySharedTexture: releases the resource; safe
no-op on null. -/
def d3d11DestroySharedTexture (st : D3D11State) (ptr : Nat) : D3D11State :=
  if ptr = 0 then st
  else { st with textures := eraseKey ptr st.textures }

/-- RenderAPI_D3D11::ResizeSharedTexture: guard the out slot, destroy the
old texture, create a new one. -/
def d3d11ResizeSharedTexture (st : D3D11State) (ptr : Nat) (w h : Nat)
    (outValid : Bool) (allocOk : Bool) : Result × Option Nat × D3D11State :=
  if outValid = false then (Result.ErrorInvalidHandle, none, st)
  else
    d3d11CreateSharedTexture (d3d11DestroySharedTexture st ptr) w h true allocOk

/-- RenderAPI_D3D11::CopyCapturedTextureToUnityTexture.  `src` and `dst`
are the descriptors read back by GetDesc from the two non-null textures
(`none` models a null pointer).  Returns the trace of GPU work issued. -/
def d3d11CopyCapturedTextureToUnityTexture (hasContext : Bool)
    (src : Option TexDesc) (dst : Option TexDesc) (flipY : Bool) : List GpuOp :=
  match src, dst with
  | some s, some d =>
    if hasContext = false then []
    else if s.width ≠ d.width ∨ s.height ≠ d.height then []
    else if flipY then
      (List.range (min s.height d.height)).map
        (fun y => GpuOp.copyRow (s.height - 1 - y) y)
    else [GpuOp.copyResource]
  | _, _ => []

/-! ## Explicit backend: RenderAPI_D3D12 -/

/-- A cached cross-API wrapper (RenderAPI_D3D12::WrappedResource).  `id`
identifies the wrapper object (fresh per CreateWrappedResource call);
`width`/`height` are the dimensions of the wrapped D3D11 view, read back
by GetDesc on the cached texture. -/
structure Wrapped where
  id : Nat
  width : Nat
  height : Nat
  deriving DecidableEq, Repr

/-- State of the explicit backend (RenderAPI_D3D12).  Raw OS event handles
created by CreateEvent and not yet closed are collected in `openEvents`;
`fenceEvent` is the current value of the `m_fenceEvent` member. -/
structure D3D12State where
  d3d12Device : Bool
  d3d12CommandQueue : Bool
  d3d11Device : Bool
  d3d11Context : Bool
  d3d11On12Device : Bool
  captureDevice : Bool
  captureContext : Bool
  compositionDevice : Bool
  fence : Bool
  fenceEvent : Option Nat
  fenceValue : Nat
  openEvents : List Nat
  nextEvent : Nat
  textures : List (Nat × TexDesc)
  nextHandle : Nat
  wrappedResources : List (Nat × Wrapped)
  nextWrapId : Nat
  deriving DecidableEq, Repr

/-- Fresh explicit-backend state. -/
def D3D12State.init : D3D12State :=
  { d3d12Device := false, d3d12CommandQueue := false, d3d11Device := false,
    d3d11Context := false, d3d11On12Device := false, captureDevice := false,
    captureContext := false, compositionDevice := false, fence := false,
    fenceEvent := none, fenceValue := 0, openEvents := [], nextEvent := 1,
    textures := [], nextHandle := 1, wrappedResources := [], nextWrapId := 1 }

/-- RenderAPI_D3D12::IsInitialized:
`m_d3d12Device != nullptr && m_d3d11Device != nullptr`. -/
def d3d12IsInitialized (st : D3D12State) : Bool :=
  st.d3d12Device && st.d3d11Device

/-- Oracles for the external calls made during explicit-backend device
initialization (RenderAPI_D3D12::ProcessDeviceEvent and its helpers). -/
structure D3D12Env where
  hasInterfaces : Bool
  hasD3D12Interface : Bool
  unityDevice : Bool
  unityQueue : Bool
  d3d11On12CreateOk : Bool
  asOn12Ok : Bool
  dxgiFactoryOk : Bool
  captureCreateOk : Bool
  asDxgiOk : Bool
  dcompCreateOk : Bool
  fenceCreateOk : Bool
  eventCreateOk : Bool
  deriving DecidableEq, Repr

/-- Environment in which every external initialization call succeeds. -/
def D3D12Env.allOk : D3D12Env :=
  { hasInterfaces := true, hasD3D12Interface := true, unityDevice := true,
    unityQueue := true, d3d11On12CreateOk := true, asOn12Ok := true,
    dxgiFactoryOk := true, captureCreateOk := true, asDxgiOk := true,
    dcompCreateOk := true, fenceCreateOk := true, eventCreateOk := true }

/-- RenderAPI_D3D12::InitializeD3D11On12.  Note that the D3D11On12 device
and context members are assigned by D3D11On12CreateDevice before the
`As` query for the ID3D11On12Device interface can still fail. -/
def InitializeD3D11On12 (env : D3D12Env) (st : D3D12State) : Result × D3D12State :=
  if st.d3d12Device = false ∨ st.d3d12CommandQueue = false then
    (Result.ErrorNotInitialized, st)
  else if env.d3d11On12CreateOk = false then
    (Result.ErrorDeviceCreationFailed, st)
  else
    let st1 := { st with d3d11Device := true, d3d11Context := true }
    if env.asOn12Ok = false then (Result.ErrorDeviceCreationFailed, st1)
    else (Result.Success, { st1 with d3d11On12Device := true })

/-- RenderAPI_D3D12::InitializeCaptureDevice.  The adapter enumeration has
no observable effect on the backend state; only factory creation and the
D3D11CreateDevice call can fail. -/
def InitializeCaptureDevice (env : D3D12Env) (st : D3D12State) : Result × D3D12State :=
  if st.d3d12Device = false then (Result.ErrorNotInitialized, st)
  else if env.dxgiFactoryOk = false then (Result.ErrorDeviceCreationFailed, st)
  else if env.captureCreateOk = false then (Result.ErrorDeviceCreationFailed, st)
  else (Result.Success, { st with captureDevice := true, captureContext := true })

/-- RenderAPI_D3D12::InitializeCompositionDevice. -/
def InitializeCompositionDevice12 (env : D3D12Env) (st : D3D12State) : Result × D3D12State :=
  if st.d3d11Device = false then (Result.ErrorNotInitialized, st)
  else if env.asDxgiOk = false then (Result.ErrorDeviceCreationFailed, st)
  else if env.dcompCreateOk = false then (Result.ErrorCompositionFailed, st)
  else (Result.Success, { st with compositionDevice := true })

/-- RenderAPI_D3D12::CreateFence.  `m_fenceEvent = CreateEvent(...)`
overwrites the member without closing a previously created handle, so a
prior handle stays in `openEvents` without being the current member. -/
def CreateFence (env : D3D12Env) (st : D3D12State) : Result × D3D12State :=
  if st.d3d12Device = false then (Result.ErrorNotInitialized, st)
  else if env.fenceCreateOk = false then (Result.ErrorDeviceCreationFailed, st)
  else
    let st1 := { st with fence := true }
    if env.eventCreateOk = false then
      (Result.ErrorDeviceCreationFailed, { st1 with fenceEvent := none })
    else
      (Result.Success,
        { st1 with fenceEvent := some st1.nextEvent,
                   openEvents := st1.nextEvent :: st1.openEvents,
                   nextEvent := st1.nextEvent + 1 })

/-- The four ordered sub-steps of explicit-backend initialization. -/
inductive InitStep where
  | interop
  | capture
  | composition
  | fence
  deriving DecidableEq, Repr

/-- RenderAPI_D3D12::ProcessDeviceEvent for kUnityGfxDeviceEventInitialize
or kUnityGfxDeviceEventAfterReset.  Returns the new state and the list of
sub-steps that were attempted, in order. -/
def d3d12ProcessDeviceEventInitialize (env : D3D12Env) (st : D3D12State) :
    D3D12State × List InitStep :=
  if env.hasInterfaces = false then (st, [])
  else if env.hasD3D12Interface = false then (st, [])
  else
    let st0 := { st with d3d12Device := env.unityDevice,
                         d3d12CommandQueue := env.unityQueue }
    if st0.d3d12Device = false ∨ st0.d3d12CommandQueue = false then (st0, [])
    else
      let p1 := InitializeD3D11On12 env st0
      if p1.1 ≠ Result.Success then (p1.2, [InitStep.interop])
      else
        let p2 := InitializeCaptureDevice env p1.2
        if p2.1 ≠ Result.Success then (p2.2, [InitStep.interop, InitStep.capture])
        else
          let p3 := InitializeCompositionDevice12 env p2.2
          if p3.1 ≠ Result.Success then
            (p3.2, [InitStep.interop, InitStep.capture, InitStep.composition])
          else
            let p4 := CreateFence env p3.2
            (p4.2, [InitStep.interop, InitStep.capture, InitStep.composition,
                    InitStep.fence])

/-- RenderAPI_D3D12::WaitForGPU: requires queue, fence and fence event;
increments the monotonic fence value (the blocking wait itself has no
further observable state effect). -/
def d3d12WaitForGPU (st : D3D12State) : D3D12State :=
  if st.d3d12CommandQueue = false ∨ st.fence = false ∨ st.fenceEvent = none then st
  else { st with fenceValue := st.fenceValue + 1 }

/-- RenderAPI_D3D12::ReleaseResources: wait for the GPU, clear the wrap
cache, close the current fence event handle, reset all device objects. -/
def d3d12ReleaseResources (st : D3D12State) : D3D12State :=
  let st1 := d3d12WaitForGPU st
  { st1 with
    wrappedResources := [],
    openEvents :=
      match st1.fenceEvent with
      | some e => st1.openEvents.filter (fun x => x ≠ e)
      | none => st1.openEvents,
    fenceEvent := none, fence := false, compositionDevice := false,
    captureContext := false, captureDevice := false, d3d11On12Device := false,
    d3d11Context := false, d3d11Device := false, d3d12CommandQueue := false,
    d3d12Device := false }

/-- Event handles that have been created but are no longer reachable
through the `m_fenceEvent` member: these can never be closed again. -/
def leakedEvents (st : D3D12State) : List Nat :=
  st.openEvents.filter (fun e => st.fenceEvent ≠ some e)

/-- RenderAPI_D3D12::CreateSharedTexture.  Same shape as the legacy
backend: guard on device and out slot, then the CreateCommittedResource
oracle. -/
def d3d12CreateSharedTexture (st : D3D12State) (w h : Nat) (outValid : Bool)
    (allocOk : Bool) : Result × Option Nat × D3D12State :=
  if st.d3d12Device = false ∨ outValid = false then
    (Result.ErrorNotInitialized, none, st)
  else if allocOk = false then
    (Result.ErrorTextureCreationFailed, none, st)
  else
    (Result.Success, some st.nextHandle,
      { st with textures := insertKey st.nextHandle ⟨w, h⟩ st.textures,
                nextHandle := st.nextHandle + 1 })

/-- RenderAPI_D3D12::DestroySharedTexture: remove the cached wrapper for
this pointer, then release the resource; safe no-op on null. -/
def d3d12DestroySharedTexture (st : D3D12State) (ptr : Nat) : D3D12State :=
  if ptr = 0 then st
  else { st with wrappedResources := eraseKey ptr st.wrappedResources,
                 textures := eraseKey ptr st.textures }

/-- RenderAPI_D3D12::ResizeSharedTexture: guard the out slot, wait for the
GPU, destroy the old texture, create a new one. -/
def d3d12ResizeSharedTexture (st : D3D12State) (ptr : Nat) (w h : Nat)
    (outValid : Bool) (allocOk : Bool) : Result × Option Nat × D3D12State :=
  if outValid = false then (Result.ErrorInvalidHandle, none, st)
  else
    d3d12CreateSharedTexture
      (d3d12DestroySharedTexture (d3d12WaitForGPU st) ptr) w h true allocOk

/-- The fall-through build portion of
RenderAPI_D3D12::GetOrCreateWrappedResource: guard the D3D11On12 device,
call CreateWrappedResource (oracle `wrapOk`), and store the fresh wrapper
in the cache under `ptr`.  `cur` is the descriptor returned by GetDesc on
the live D3D12 resource; the `As` query of a cached wrapper to
ID3D11Texture2D always succeeds, since only 2D textures are ever wrapped.
Returns the wrapper handed to the caller, the new state, and the GPU work
trace (a CreateWrappedResource call when a wrapper is built). -/
def buildWrappedResource (wrapOk : Bool) (ptr : Nat) (cur : TexDesc)
    (s : D3D12State) : Option Wrapped × D3D12State × List GpuOp :=
  if s.d3d11On12Device = false then (none, s, [])
  else if wrapOk = false then (none, s, [])
  else
    let w : Wrapped := ⟨s.nextWrapId, cur.width, cur.height⟩
    (some w,
      { s with wrappedResources := insertKey ptr w s.wrappedResources,
               nextWrapId := s.nextWrapId + 1 },
      [GpuOp.createWrapped s.nextWrapId])

/-- The dispatch part of RenderAPI_D3D12::GetOrCreateWrappedResource: a
cache hit with matching dimensions returns the cached wrapper; a stale hit
is erased first; otherwise the function falls through to the build code
(`buildWrappedResource` above). -/
def GetOrCreateWrappedResource (wrapOk : Bool) (st : D3D12State) (ptr : Nat)
    (cur : TexDesc) : Option Wrapped × D3D12State × List GpuOp :=
  match lookupKey ptr st.wrappedResources with
  | some w =>
    if w.width ≠ cur.width ∨ w.height ≠ cur.height then
      buildWrappedResource wrapOk ptr cur
        { st with wrappedResources := eraseKey ptr st.wrappedResources }
    else (some w, st, [])
  | none => buildWrappedResource wrapOk ptr cur st

/-- Oracles for the external calls made by the explicit backend copy. -/
structure CopyEnv where
  wrapOk : Bool
  stagingOk : Bool
  mapOk : Bool
  deriving DecidableEq, Repr

/-- RenderAPI_D3D12::CopyCapturedTextureToUnityTexture.  `src` is the
captured D3D11 texture descriptor (`none` for a null pointer), `dstPtr`
the Unity D3D12 resource pointer (`none` for null) and `dstCur` the
descriptor GetDesc returns for it.  Returns (new state, GPU work trace). -/
def d3d12CopyCapturedTextureToUnityTexture (cenv : CopyEnv) (st : D3D12State)
    (src : Option TexDesc) (dstPtr : Option Nat) (dstCur : TexDesc)
    (flipY : Bool) : D3D12State × List GpuOp :=
  match src, dstPtr with
  | some s, some dp =>
    if s.width ≠ dstCur.width ∨ s.height ≠ dstCur.height then (st, [])
    else
      match GetOrCreateWrappedResource cenv.wrapOk st dp dstCur with
      | (none, st1, ops) => (st1, ops)
      | (some w, st1, ops) =>
        if s.width ≠ w.width ∨ s.height ≠ w.height then (st1, ops)
        else if cenv.stagingOk = false then (st1, ops)
        else if cenv.mapOk = false then
          (st1, ops ++ [GpuOp.createStaging, GpuOp.copyToStaging])
        else if flipY then
          (st1,
            ops ++ [GpuOp.createStaging, GpuOp.copyToStaging, GpuOp.mapStaging,
                    GpuOp.acquireWrapped]
              ++ (List.range (min s.height w.height)).map
                   (fun y => GpuOp.updateRow (s.height - 1 - y) y)
              ++ [GpuOp.unmapStaging, GpuOp.releaseWrapped, GpuOp.flush])
        else
          (st1,
            ops ++ [GpuOp.createStaging, GpuOp.copyToStaging, GpuOp.mapStaging,
                    GpuOp.acquireWrapped, GpuOp.updateWhole, GpuOp.unmapStaging,
                    GpuOp.releaseWrapped, GpuOp.flush])
  | _, _ => (st, [])

/-! ## Capture session: WebViewCapture -/

/-- Oracles for the external calls made by WebViewCapture::Initialize and
its two helpers; the `Throws` fields model WinRT calls raising. -/
structure CapEnv where
  webViewReady : Bool
  vtPreconditionsOk : Bool
  vtThrows : Bool
  captureDeviceOk : Bool
  dxgiOk : Bool
  winrtDeviceOk : Bool
  hwndOk : Bool
  captureItemOk : Bool
  framePoolThrows : Bool
  sessionThrows : Bool
  startThrows : Bool
  deriving DecidableEq, Repr

/-- Observable state of a WebViewCapture instance. -/
structure CapState where
  compositor : Bool
  windowTarget : Bool
  rootVisual : Bool
  webViewVisual : Bool
  d3dDevice : Bool
  captureItem : Bool
  framePool : Bool
  session : Bool
  sessionStarted : Bool
  deriving DecidableEq, Repr

/-- Fresh capture state (all members null, nothing started). -/
def CapState.init : CapState :=
  { compositor := false, windowTarget := false, rootVisual := false,
    webViewVisual := false, d3dDevice := false, captureItem := false,
    framePool := false, session := false, sessionStarted := false }

/-- An exception escaping the body of a capture routine before its
enclosing catch handlers run. -/
inductive CapExn where
  | winrtError
  | stdError
  | unknown
  deriving DecidableEq, Repr

/-- Body of WebViewCapture::InitializeVisualTree, before its catch-all:
either the preconditions fail (plain return), or a WinRT call throws, or
all four composition objects are stored. -/
def initializeVisualTreeBody (env : CapEnv) (st : CapState) :
    CapState × Option CapExn :=
  if env.vtPreconditionsOk = false then (st, none)
  else if env.vtThrows then (st, some CapExn.winrtError)
  else
    ({ st with compositor := true, windowTarget := true, rootVisual := true,
               webViewVisual := true }, none)

/-- WebViewCapture::InitializeVisualTree: the body wrapped in catch(...),
which logs and returns. -/
def initializeVisualTree (env : CapEnv) (st : CapState) : CapState :=
  (initializeVisualTreeBody env st).1

/-- Body of WebViewCapture::InitializeGraphicsCapture, before its catch
handlers.  Setup failures detected by the code itself are plain returns;
the capture item, frame pool and session are stored together only after
session creation succeeded, so a throwing frame-pool or session creation
stores nothing, while a throwing StartCapture leaves the three objects
stored with capture never started. -/
def initializeGraphicsCaptureBody (env : CapEnv) (st : CapState) :
    CapState × Option CapExn :=
  if env.captureDeviceOk = false then (st, none)
  else if env.dxgiOk = false then (st, none)
  else if env.winrtDeviceOk = false then (st, none)
  else if env.hwndOk = false then ({ st with d3dDevice := true }, none)
  else if env.captureItemOk = false then ({ st with d3dDevice := true }, none)
  else if env.framePoolThrows then
    ({ st with d3dDevice := true }, some CapExn.winrtError)
  else if env.sessionThrows then
    ({ st with d3dDevice := true }, some CapExn.winrtError)
  else if env.startThrows then
    ({ st with d3dDevice := true, captureItem := true, framePool := true,
               session := true }, some CapExn.winrtError)
  else
    ({ st with d3dDevice := true, captureItem := true, framePool := true,
               session := true, sessionStarted := true }, none)

/-- WebViewCapture::InitializeGraphicsCapture: the body wrapped in its
three catch handlers, each of which logs and returns. -/
def initializeGraphicsCapture (env : CapEnv) (st : CapState) : CapState :=
  (initializeGraphicsCaptureBody env st).1

/-- Body of WebViewCapture::Initialize up to (but not including) its own
catch handler: the guard returns ErrorNotInitialized for a WebView that is
not ready; the try block calls the two helpers — each already wrapped in
its own catch-all, so no exception reaches this level — and returns
Success.  The second component is the exception arriving at the outer
catch. -/
def capInitializeBody (env : CapEnv) (st : CapState) :
    (Result × CapState) × Option CapExn :=
  if env.webViewReady = false then ((Result.ErrorNotInitialized, st), none)
  else
    ((Result.Success,
      initializeGraphicsCapture env (initializeVisualTree env st)), none)

/-- WebViewCapture::Initialize: the body plus the enclosing catch, which
downgrades any exception reaching it to ErrorUnknown.  No exception
escapes to the caller. -/
def capInitialize (env : CapEnv) (st : CapState) : Result × CapState :=
  match capInitializeBody env st with
  | (r, none) => r
  | ((_, s), some _) => (Result.ErrorUnknown, s)

/-! ## Helper lemmas about the key-value maps -/

theorem lookupKey_mem {α : Type} {k : Nat} {v : α} :
    ∀ {l : List (Nat × α)}, lookupKey k l = some v → (k, v) ∈ l := by
  intro l
  induction l with
  | nil => intro hl; simp [lookupKey] at hl
  | cons p rest ih =>
    intro hl
    obtain ⟨k2, v2⟩ := p
    by_cases hk : k2 = k
    · subst hk
      rw [lookupKey, if_pos rfl] at hl
      obtain rfl : v2 = v := by injection hl
      exact List.mem_cons_self _ _
    · rw [lookupKey, if_neg hk] at hl
      exact List.mem_cons_of_mem _ (ih hl)

theorem eraseKey_sublist {α : Type} (k : Nat) :
    ∀ l : List (Nat × α), List.Sublist (eraseKey k l) l := by
  intro l
  induction l with
  | nil => exact List.Sublist.refl _
  | cons p rest ih =>
    obtain ⟨k2, v2⟩ := p
    by_cases hk : k2 = k
    · rw [eraseKey, if_pos hk]
      exact ih.cons _
    · rw [eraseKey, if_neg hk]
      exact ih.cons₂ _

theorem keysNodup_eraseKey {α : Type} {k : Nat} {l : List (Nat × α)}
    (h : KeysNodup l) : KeysNodup (eraseKey k l) :=
  h.sublist ((eraseKey_sublist k l).map Prod.fst)

theorem key_ne_of_mem_eraseKey {α : Type} {k : Nat} {p : Nat × α} :
    ∀ {l : List (Nat × α)}, p ∈ eraseKey k l → p.1 ≠ k := by
  intro l
  induction l with
  | nil => intro hm; simp [eraseKey] at hm
  | cons q rest ih =>
    intro hm
    obtain ⟨k2, v2⟩ := q
    by_cases hk : k2 = k
    · rw [eraseKey, if_pos hk] at hm
      exact ih hm
    · rw [eraseKey, if_neg hk] at hm
      rcases List.mem_cons.mp hm with hm | hm
      · subst hm; exact hk
      · exact ih hm

theorem lookupKey_eraseKey {α : Type} (k : Nat) :
    ∀ l : List (Nat × α), lookupKey k (eraseKey k l) = none := by
  intro l
  induction l with
  | nil => rfl
  | cons p rest ih =>
    obtain ⟨k2, v2⟩ := p
    by_cases hk : k2 = k
    · rw [eraseKey, if_pos hk]; exact ih
    · rw [eraseKey, if_neg hk, lookupKey, if_neg hk]; exact ih

theorem lookupKey_insertKey {α : Type} (k : Nat) (v : α) (l : List (Nat × α)) :
    lookupKey k (insertKey k v l) = some v := by
  rw [insertKey, lookupKey, if_pos rfl]

theorem keysNodup_insertKey {α : Type} {k : Nat} {v : α} {l : List (Nat × α)}
    (h : KeysNodup l) : KeysNodup (insertKey k v l) := by
  rw [insertKey, KeysNodup, List.map_cons, List.nodup_cons]
  refine ⟨?_, keysNodup_eraseKey h⟩
  intro hk
  rcases List.mem_map.mp hk with ⟨p, hp, hfst⟩
  exact key_ne_of_mem_eraseKey hp hfst

theorem lookupKey_eq_none {α : Type} {k : Nat} :
    ∀ {l : List (Nat × α)}, (∀ p ∈ l, p.1 ≠ k) → lookupKey k l = none := by
  intro l
  induction l with
  | nil => intro; rfl
  | cons p rest ih =>
    intro hl
    obtain ⟨k2, v2⟩ := p
    have hk : k2 ≠ k := hl (k2, v2) (List.mem_cons_self _ _)
    rw [lookupKey, if_neg hk]
    exact ih (fun q hq => hl q (List.mem_cons_of_mem _ hq))

theorem mem_of_mem_eraseKey {α : Type} {k : Nat} {p : Nat × α}
    {l : List (Nat × α)} (h : p ∈ eraseKey k l) : p ∈ l :=
  (eraseKey_sublist k l).subset h

/-! ## Helper lemmas about the wrap cache -/

theorem buildWrapped_dims {wrapOk : Bool} {ptr : Nat} {cur : TexDesc}
    {s : D3D12State} {w2 : Wrapped} {st2 : D3D12State} {ops : List GpuOp}
    (h : buildWrappedResource wrapOk ptr cur s = (some w2, st2, ops)) :
    w2.width = cur.width ∧ w2.height = cur.height := by
  unfold buildWrappedResource at h
  split_ifs at h
  · exact absurd (congrArg (fun t => t.1) h) (by simp)
  · exact absurd (congrArg (fun t => t.1) h) (by simp)
  · obtain ⟨h1, -⟩ := Prod.mk.injEq .. ▸ h
    obtain rfl : w2 = ⟨s.nextWrapId, cur.width, cur.height⟩ := by
      injection h1.symm
    exact ⟨rfl, rfl⟩

theorem buildWrapped_success {ptr : Nat} {cur : TexDesc} {s : D3D12State}
    (h11 : s.d3d11On12Device = true) :
    buildWrappedResource true ptr cur s =
      (some ⟨s.nextWrapId, cur.width, cur.height⟩,
       { s with wrappedResources :=
                  insertKey ptr ⟨s.nextWrapId, cur.width, cur.height⟩
                    s.wrappedResources,
                nextWrapId := s.nextWrapId + 1 },
       [GpuOp.createWrapped s.nextWrapId]) := by
  unfold buildWrappedResource
  rw [h11]
  simp

theorem buildWrapped_keysNodup {wrapOk : Bool} {ptr : Nat} {cur : TexDesc}
    {s : D3D12State} (h : KeysNodup s.wrappedResources) :
    KeysNodup (buildWrappedResource wrapOk ptr cur s).2.1.wrappedResources := by
  unfold buildWrappedResource
  split_ifs <;> first
    | exact h
    | exact keysNodup_insertKey h

theorem getOrCreate_dims {wrapOk : Bool} {st : D3D12State} {ptr : Nat}
    {cur : TexDesc} {w2 : Wrapped} {st2 : D3D12State} {ops : List GpuOp}
    (h : GetOrCreateWrappedResource wrapOk st ptr cur = (some w2, st2, ops)) :
    w2.width = cur.width ∧ w2.height = cur.height := by
  unfold GetOrCreateWrappedResource at h
  cases hl : lookupKey ptr st.wrappedResources with
  | none =>
    rw [hl] at h
    exact buildWrapped_dims h
  | some w =>
    rw [hl] at h
    dsimp only at h
    by_cases hdim : w.width ≠ cur.width ∨ w.height ≠ cur.height
    · rw [if_pos hdim] at h
      exact buildWrapped_dims h
    · rw [if_neg hdim] at h
      push_neg at hdim
      obtain ⟨h1, -⟩ := Prod.mk.injEq .. ▸ h
      obtain rfl : w2 = w := by injection h1.symm
      exact hdim

theorem getOrCreate_keysNodup {wrapOk : Bool} {st : D3D12State} {ptr : Nat}
    {cur : TexDesc} (h : KeysNodup st.wrappedResources) :
    KeysNodup
      (GetOrCreateWrappedResource wrapOk st ptr cur).2.1.wrappedResources := by
  unfold GetOrCreateWrappedResource
  cases hl : lookupKey ptr st.wrappedResources with
  | none => exact buildWrapped_keysNodup h
  | some w =>
    dsimp only
    by_cases hdim : w.width ≠ cur.width ∨ w.height ≠ cur.height
    · rw [if_pos hdim]
      exact buildWrapped_keysNodup (keysNodup_eraseKey h)
    · rw [if_neg hdim]
      exact h

theorem getOrCreate_success {st : D3D12State} (ptr : Nat) (cur : TexDesc)
    (h11 : st.d3d11On12Device = true) :
    ∃ w2 st2 ops,
      GetOrCreateWrappedResource true st ptr cur = (some w2, st2, ops)
      ∧ w2.width = cur.width ∧ w2.height = cur.height
      ∧ ∀ op ∈ ops, ∃ i, op = GpuOp.createWrapped i := by
  unfold GetOrCreateWrappedResource
  cases hl : lookupKey ptr st.wrappedResources with
  | none =>
    refine ⟨_, _, _, buildWrapped_success h11, rfl, rfl, ?_⟩
    intro op hop
    rcases List.mem_singleton.mp hop with rfl
    exact ⟨_, rfl⟩
  | some w =>
    dsimp only
    by_cases hdim : w.width ≠ cur.width ∨ w.height ≠ cur.height
    · rw [if_pos hdim]
      refine ⟨_, _, _, buildWrapped_success h11, rfl, rfl, ?_⟩
      intro op hop
      rcases List.mem_singleton.mp hop with rfl
      exact ⟨_, rfl⟩
    · rw [if_neg hdim]
      push_neg at hdim
      exact ⟨w, st, [], rfl, hdim.1, hdim.2, by intro op hop; simp at hop⟩

/-- Fields of the explicit-backend state untouched by WaitForGPU. -/
theorem d3d12WaitForGPU_fields (st : D3D12State) :
    (d3d12WaitForGPU st).textures = st.textures
    ∧ (d3d12WaitForGPU st).nextHandle = st.nextHandle
    ∧ (d3d12WaitForGPU st).d3d12Device = st.d3d12Device
    ∧ (d3d12WaitForGPU st).wrappedResources = st.wrappedResources := by
  unfold d3d12WaitForGPU
  split <;> exact ⟨rfl, rfl, rfl, rfl⟩

/-! ## Claim theorems -/

/-- Claim C10: for every width and height, CreateSharedTexture called with
a null output-handle pointer returns ErrorNotInitialized and allocates no
texture (the whole backend state is unchanged), even when a device is
bound, on both backends — the null-output case is reported with the same
code as the unbound-device case, not as an invalid-argument error. -/
theorem createSharedTextureNullOut (st11 : D3D11State) (st12 : D3D12State)
    (w h : Nat) (allocOk : Bool) :
    d3d11CreateSharedTexture st11 w h false allocOk
        = (Result.ErrorNotInitialized, none, st11)
    ∧ d3d12CreateSharedTexture st12 w h false allocOk
        = (Result.ErrorNotInitialized, none, st12) := by
  constructor <;>
    simp [d3d11CreateSharedTexture, d3d12CreateSharedTexture]

/-- Claim C8: with a valid output slot, CreateSharedTexture returns
ErrorNotInitialized when no device is bound, ErrorTextureCreationFailed
when the underlying allocation fails, and otherwise Success with a
non-null handle, on both backends. -/
theorem createSharedTextureErrorTaxonomy (st11 : D3D11State)
    (st12 : D3D12State) (w h : Nat) (allocOk : Bool)
    (hpos11 : 0 < st11.nextHandle) (hpos12 : 0 < st12.nextHandle) :
    (st11.device = false →
      d3d11CreateSharedTexture st11 w h true allocOk
        = (Result.ErrorNotInitialized, none, st11))
    ∧ (st11.device = true → allocOk = false →
      d3d11CreateSharedTexture st11 w h true allocOk
        = (Result.ErrorTextureCreationFailed, none, st11))
    ∧ (st11.device = true → allocOk = true →
      (d3d11CreateSharedTexture st11 w h true allocOk).1 = Result.Success
      ∧ (d3d11CreateSharedTexture st11 w h true allocOk).2.1
          = some st11.nextHandle
      ∧ st11.nextHandle ≠ 0)
    ∧ (st12.d3d12Device = false →
      d3d12CreateSharedTexture st12 w h true allocOk
        = (Result.ErrorNotInitialized, none, st12))
    ∧ (st12.d3d12Device = true → allocOk = false →
      d3d12CreateSharedTexture st12 w h true allocOk
        = (Result.ErrorTextureCreationFailed, none, st12))
    ∧ (st12.d3d12Device = true → allocOk = true →
      (d3d12CreateSharedTexture st12 w h true allocOk).1 = Result.Success
      ∧ (d3d12CreateSharedTexture st12 w h true allocOk).2.1
          = some st12.nextHandle
      ∧ st12.nextHandle ≠ 0) := by
  refine ⟨?_, ?_, ?_, ?_, ?_, ?_⟩
  · intro hdev
    simp [d3d11CreateSharedTexture, hdev]
  · intro hdev halloc
    simp [d3d11CreateSharedTexture, hdev, halloc]
  · intro hdev halloc
    refine ⟨?_, ?_, Nat.pos_iff_ne_zero.mp hpos11⟩ <;>
      simp [d3d11CreateSharedTexture, hdev, halloc]
  · intro hdev
    simp [d3d12CreateSharedTexture, hdev]
  · intro hdev halloc
    simp [d3d12CreateSharedTexture, hdev, halloc]
  · intro hdev halloc
    refine ⟨?_, ?_, Nat.pos_iff_ne_zero.mp hpos12⟩ <;>
      simp [d3d12CreateSharedTexture, hdev, halloc]

/-- Witness for createSharedTextureErrorTaxonomy at a concrete state. -/
theorem createSharedTextureErrorTaxonomy_witness :
    (d3d11CreateSharedTexture
        { device := true, context := true, compositionDevice := false,
          textures := [], nextHandle := 1 } 800 600 true true).1
      = Result.Success := by
  have h := createSharedTextureErrorTaxonomy
    { device := true, context := true, compositionDevice := false,
      textures := [], nextHandle := 1 }
    D3D12State.init 800 600 true (by decide) (by decide)
  exact (h.2.2.1 rfl rfl).1

/-- Claim C1: whenever source and destination dimensions differ,
CopyCapturedTextureToUnityTexture on either backend issues no GPU work at
all and returns normally — the check fires before any GPU operation, and
on the explicit backend the state (including the wrap cache) is left
untouched. -/
theorem copyMismatchSkipsGpuWork (s d : TexDesc) (hasCtx flip : Bool)
    (cenv : CopyEnv) (st : D3D12State) (dp : Nat)
    (hmis : s.width ≠ d.width ∨ s.height ≠ d.height) :
    d3d11CopyCapturedTextureToUnityTexture hasCtx (some s) (some d) flip = []
    ∧ d3d12CopyCapturedTextureToUnityTexture cenv st (some s) (some dp) d flip
        = (st, []) := by
  constructor
  · cases hasCtx
    · rfl
    · simp [d3d11CopyCapturedTextureToUnityTexture, hmis]
  · simp [d3d12CopyCapturedTextureToUnityTexture, hmis]

/-- Witness for copyMismatchSkipsGpuWork at concrete mismatched sizes. -/
theorem copyMismatchSkipsGpuWork_witness :
    d3d11CopyCapturedTextureToUnityTexture true
        (some ⟨1024, 768⟩) (some ⟨800, 600⟩) true = []
    ∧ d3d12CopyCapturedTextureToUnityTexture ⟨true, true, true⟩
        D3D12State.init (some ⟨1024, 768⟩) (some 1) ⟨800, 600⟩ true
      = (D3D12State.init, []) :=
  copyMismatchSkipsGpuWork ⟨1024, 768⟩ ⟨800, 600⟩ true true
    ⟨true, true, true⟩ D3D12State.init 1 (Or.inl (by decide))

/-- Claim C6 (code defect): after one initialize device event on a fresh
explicit backend with every external call succeeding, no fence event
handle is leaked; after a second initialize event without an intervening
release, the first event handle is still open but no longer reachable
through the m_fenceEvent member — it has leaked. -/
theorem doubleInitializeLeaksFenceEvent :
    leakedEvents
        (d3d12ProcessDeviceEventInitialize D3D12Env.allOk D3D12State.init).1
      = []
    ∧ leakedEvents
        (d3d12ProcessDeviceEventInitialize D3D12Env.allOk
          (d3d12ProcessDeviceEventInitialize D3D12Env.allOk
            D3D12State.init).1).1
      = [1] := by
  constructor <;> rfl

/-- Claim C3 (counterexample): on the legacy backend with a live 800×600
texture at handle 1, ResizeSharedTexture called with a null output slot
fails with ErrorInvalidHandle and does not destroy the old texture: the
old handle is still valid after the failed call. -/
theorem resizeNullOutLeavesOldHandleLive :
    (d3d11ResizeSharedTexture
        { device := true, context := true, compositionDevice := false,
          textures := [(1, ⟨800, 600⟩)], nextHandle := 2 }
        1 800 600 false true).1 = Result.ErrorInvalidHandle
    ∧ lookupKey 1
        (d3d11ResizeSharedTexture
          { device := true, context := true, compositionDevice := false,
            textures := [(1, ⟨800, 600⟩)], nextHandle := 2 }
          1 800 600 false true).2.2.textures
      = some ⟨800, 600⟩ := by
  constructor <;> rfl

/-- Fields of the legacy-backend state untouched by DestroySharedTexture. -/
theorem d3d11Destroy_fields (st : D3D11State) (ptr : Nat) :
    (d3d11DestroySharedTexture st ptr).device = st.device
    ∧ (d3d11DestroySharedTexture st ptr).nextHandle = st.nextHandle := by
  unfold d3d11DestroySharedTexture
  split <;> exact ⟨rfl, rfl⟩

/-- Fields of the explicit-backend state untouched by
DestroySharedTexture. -/
theorem d3d12Destroy_fields (st : D3D12State) (ptr : Nat) :
    (d3d12DestroySharedTexture st ptr).d3d12Device = st.d3d12Device
    ∧ (d3d12DestroySharedTexture st ptr).nextHandle = st.nextHandle := by
  unfold d3d12DestroySharedTexture
  split <;> exact ⟨rfl, rfl⟩

/-- Shapes the texture heap can take after CreateSharedTexture. -/
theorem d3d11Create_textures (st : D3D11State) (w h : Nat) (allocOk : Bool) :
    (d3d11CreateSharedTexture st w h true allocOk).2.2.textures = st.textures
    ∨ (d3d11CreateSharedTexture st w h true allocOk).2.2.textures
        = insertKey st.nextHandle ⟨w, h⟩ st.textures := by
  unfold d3d11CreateSharedTexture
  split_ifs <;> first
    | exact Or.inl rfl
    | exact Or.inr rfl

/-- Shapes the texture heap can take after the explicit backend's
CreateSharedTexture. -/
theorem d3d12Create_textures (st : D3D12State) (w h : Nat) (allocOk : Bool) :
    (d3d12CreateSharedTexture st w h true allocOk).2.2.textures = st.textures
    ∨ (d3d12CreateSharedTexture st w h true allocOk).2.2.textures
        = insertKey st.nextHandle ⟨w, h⟩ st.textures := by
  unfold d3d12CreateSharedTexture
  split_ifs <;> first
    | exact Or.inl rfl
    | exact Or.inr rfl

/-- Successful CreateSharedTexture on the legacy backend, in closed form. -/
theorem d3d11Create_success (st : D3D11State) (w h : Nat)
    (hdev : st.device = true) :
    d3d11CreateSharedTexture st w h true true
      = (Result.Success, some st.nextHandle,
         { st with textures := insertKey st.nextHandle ⟨w, h⟩ st.textures,
                   nextHandle := st.nextHandle + 1 }) := by
  unfold d3d11CreateSharedTexture
  rw [hdev]
  simp

/-- Successful CreateSharedTexture on the explicit backend, in closed
form. -/
theorem d3d12Create_success (st : D3D12State) (w h : Nat)
    (hdev : st.d3d12Device = true) :
    d3d12CreateSharedTexture st w h true true
      = (Result.Success, some st.nextHandle,
         { st with textures := insertKey st.nextHandle ⟨w, h⟩ st.textures,
                   nextHandle := st.nextHandle + 1 }) := by
  unfold d3d12CreateSharedTexture
  rw [hdev]
  simp

/-- The texture heap after DestroySharedTexture on a non-null handle. -/
theorem d3d11Destroy_textures (st : D3D11State) {ptr : Nat} (hp0 : ptr ≠ 0) :
    (d3d11DestroySharedTexture st ptr).textures = eraseKey ptr st.textures := by
  unfold d3d11DestroySharedTexture
  rw [if_neg hp0]

/-- The texture heap after the explicit backend's DestroySharedTexture on
a non-null handle. -/
theorem d3d12Destroy_textures (st : D3D12State) {ptr : Nat} (hp0 : ptr ≠ 0) :
    (d3d12DestroySharedTexture st ptr).textures = eraseKey ptr st.textures := by
  unfold d3d12DestroySharedTexture
  rw [if_neg hp0]

/-- Claim C3 (amended): provided the caller passes a non-null output slot,
ResizeSharedTexture on either backend destroys the old texture first, so
the old handle is no longer live after the call whether or not the
creation succeeds — including when the new dimensions equal the old ones —
and on success the returned handle is a fresh identity, distinct from the
old handle and from every live texture of the pre-state.  (With a null
output slot the call instead fails early with ErrorInvalidHandle and the
old texture stays live, see the counterexample.) -/
theorem resizeDestroyThenCreate (st11 : D3D11State) (st12 : D3D12State)
    (ptr w h : Nat) (allocOk : Bool)
    (hptr11 : ptr < st11.nextHandle) (hptr12 : ptr < st12.nextHandle)
    (hkeys11 : ∀ p ∈ st11.textures, p.1 < st11.nextHandle)
    (hkeys12 : ∀ p ∈ st12.textures, p.1 < st12.nextHandle) :
    (ptr ≠ 0 →
      lookupKey ptr
        (d3d11ResizeSharedTexture st11 ptr w h true allocOk).2.2.textures
        = none)
    ∧ (st11.device = true → allocOk = true →
        (d3d11ResizeSharedTexture st11 ptr w h true allocOk).2.1
          = some st11.nextHandle
        ∧ st11.nextHandle ≠ ptr
        ∧ ∀ p ∈ st11.textures, p.1 ≠ st11.nextHandle)
    ∧ (ptr ≠ 0 →
      lookupKey ptr
        (d3d12ResizeSharedTexture st12 ptr w h true allocOk).2.2.textures
        = none)
    ∧ (st12.d3d12Device = true → allocOk = true →
        (d3d12ResizeSharedTexture st12 ptr w h true allocOk).2.1
          = some st12.nextHandle
        ∧ st12.nextHandle ≠ ptr
        ∧ ∀ p ∈ st12.textures, p.1 ≠ st12.nextHandle) := by
  obtain ⟨hwt, hwn, hwd, hww⟩ := d3d12WaitForGPU_fields st12
  refine ⟨?_, ?_, ?_, ?_⟩
  · intro hp0
    unfold d3d11ResizeSharedTexture
    rw [if_neg (by simp)]
    rcases d3d11Create_textures (d3d11DestroySharedTexture st11 ptr) w h
        allocOk with hc | hc <;> rw [hc, d3d11Destroy_textures st11 hp0]
    · exact lookupKey_eraseKey ptr _
    · rw [(d3d11Destroy_fields st11 ptr).2, insertKey, lookupKey,
        if_neg hptr11.ne']
      exact lookupKey_eq_none
        (fun p hp => key_ne_of_mem_eraseKey (mem_of_mem_eraseKey hp))
  · intro hdev halloc
    subst halloc
    unfold d3d11ResizeSharedTexture
    rw [if_neg (by simp)]
    rw [d3d11Create_success (d3d11DestroySharedTexture st11 ptr) w h
      (by rw [(d3d11Destroy_fields st11 ptr).1]; exact hdev)]
    dsimp only
    rw [(d3d11Destroy_fields st11 ptr).2]
    exact ⟨rfl, hptr11.ne', fun p hp => (hkeys11 p hp).ne⟩
  · intro hp0
    unfold d3d12ResizeSharedTexture
    rw [if_neg (by simp)]
    rcases d3d12Create_textures
        (d3d12DestroySharedTexture (d3d12WaitForGPU st12) ptr) w h allocOk
      with hc | hc <;>
        rw [hc, d3d12Destroy_textures (d3d12WaitForGPU st12) hp0, hwt]
    · exact lookupKey_eraseKey ptr _
    · rw [(d3d12Destroy_fields (d3d12WaitForGPU st12) ptr).2, hwn, insertKey,
        lookupKey, if_neg hptr12.ne']
      exact lookupKey_eq_none
        (fun p hp => key_ne_of_mem_eraseKey (mem_of_mem_eraseKey hp))
  · intro hdev halloc
    subst halloc
    unfold d3d12ResizeSharedTexture
    rw [if_neg (by simp)]
    rw [d3d12Create_success (d3d12DestroySharedTexture (d3d12WaitForGPU st12)
        ptr) w h
      (by rw [(d3d12Destroy_fields (d3d12WaitForGPU st12) ptr).1, hwd]
          exact hdev)]
    dsimp only
    rw [(d3d12Destroy_fields (d3d12WaitForGPU st12) ptr).2, hwn]
    exact ⟨rfl, hptr12.ne', fun p hp => (hkeys12 p hp).ne⟩

/-- Witness for resizeDestroyThenCreate at a concrete state holding one
800×600 texture at handle 1, resized to the same 800×600. -/
theorem resizeDestroyThenCreate_witness :
    lookupKey 1
      (d3d11ResizeSharedTexture
        { device := true, context := true, compositionDevice := false,
          textures := [(1, ⟨800, 600⟩)], nextHandle := 2 }
        1 800 600 true true).2.2.textures = none := by
  have h := resizeDestroyThenCreate
    { device := true, context := true, compositionDevice := false,
      textures := [(1, ⟨800, 600⟩)], nextHandle := 2 }
    { D3D12State.init with nextHandle := 2 } 1 800 600 true
    (by decide) (by decide) (by decide) (by decide)
  exact h.1 (by decide)

/-- Claim C7 (counterexample): a ready WebView whose visual tree builds
fine but whose capture D3D11 device is null skips the whole capture setup:
no capture item, frame pool or session is created and capture never
starts — yet Initialize reports Success, so the returned result does not
reflect the failure. -/
theorem captureInitFailureReturnsSuccess :
    capInitialize
        { webViewReady := true, vtPreconditionsOk := true, vtThrows := false,
          captureDeviceOk := false, dxgiOk := true, winrtDeviceOk := true,
          hwndOk := true, captureItemOk := true, framePoolThrows := false,
          sessionThrows := false, startThrows := false }
        CapState.init
      = (Result.Success,
         { compositor := true, windowTarget := true, rootVisual := true,
           webViewVisual := true, d3dDevice := false, captureItem := false,
           framePool := false, session := false, sessionStarted := false }) := by
  rfl

/-- The visual-tree setup never touches the capture-session members. -/
theorem initializeVisualTree_session (env : CapEnv) (st : CapState) :
    (initializeVisualTree env st).session = st.session
    ∧ (initializeVisualTree env st).sessionStarted = st.sessionStarted := by
  unfold initializeVisualTree initializeVisualTreeBody
  split_ifs <;> exact ⟨rfl, rfl⟩

/-- Graphics-capture setup with a null capture device: plain early return,
state unchanged, no exception. -/
theorem initializeGraphicsCaptureBody_noDevice (env : CapEnv) (st : CapState)
    (h : env.captureDeviceOk = false) :
    initializeGraphicsCaptureBody env st = (st, none) := by
  unfold initializeGraphicsCaptureBody
  rw [h]
  simp

/-- Graphics-capture setup in which everything succeeds except
StartCapture, which throws: the three capture objects are stored, capture
is never started, and the exception goes to the catch handlers. -/
theorem initializeGraphicsCaptureBody_startThrow (env : CapEnv)
    (st : CapState) (h1 : env.captureDeviceOk = true) (h2 : env.dxgiOk = true)
    (h3 : env.winrtDeviceOk = true) (h4 : env.hwndOk = true)
    (h5 : env.captureItemOk = true) (h6 : env.framePoolThrows = false)
    (h7 : env.sessionThrows = false) (h8 : env.startThrows = true) :
    initializeGraphicsCaptureBody env st
      = ({ st with d3dDevice := true, captureItem := true, framePool := true,
                   session := true }, some CapExn.winrtError) := by
  unfold initializeGraphicsCaptureBody
  rw [h1, h2, h3, h4, h5, h6, h7, h8]
  simp

/-- Claim C7 (amended): Initialize never propagates an exception — no
exception from the setup bodies ever reaches its outer catch, and its
result and state come straight from the body.  A not-ready WebView yields
ErrorNotInitialized; every other outcome returns Success even when a setup
step failed or threw: a null capture device leaves the session members and
started flag untouched (nothing created, nothing started), and a throwing
StartCapture leaves the session objects stored with capture never
started. -/
theorem captureInitializeSwallowsFailures (env : CapEnv) (st : CapState) :
    ((capInitializeBody env st).2 = none
      ∧ capInitialize env st = (capInitializeBody env st).1)
    ∧ (capInitialize env st).1
        = (if env.webViewReady = true then Result.Success
           else Result.ErrorNotInitialized)
    ∧ (env.webViewReady = true → env.captureDeviceOk = false →
        (capInitialize env st).2.session = st.session
        ∧ (capInitialize env st).2.sessionStarted = st.sessionStarted)
    ∧ (env.webViewReady = true → env.captureDeviceOk = true →
        env.dxgiOk = true → env.winrtDeviceOk = true → env.hwndOk = true →
        env.captureItemOk = true → env.framePoolThrows = false →
        env.sessionThrows = false → env.startThrows = true →
        (capInitialize env st).2.session = true
        ∧ (capInitialize env st).2.sessionStarted = st.sessionStarted) := by
  have hbody : (capInitializeBody env st).2 = none := by
    unfold capInitializeBody
    split_ifs <;> rfl
  have hcap : capInitialize env st = (capInitializeBody env st).1 := by
    unfold capInitialize
    rcases hb : capInitializeBody env st with ⟨r, e⟩
    cases e with
    | none => rfl
    | some ex =>
      rw [hb] at hbody
      simp at hbody
  refine ⟨⟨hbody, hcap⟩, ?_, ?_, ?_⟩
  · rw [hcap]
    unfold capInitializeBody
    by_cases hr : env.webViewReady = false
    · rw [if_pos hr, hr]
      rfl
    · rw [if_neg hr]
      have : env.webViewReady = true := by
        cases henv : env.webViewReady
        · exact absurd henv hr
        · rfl
      rw [this]
      rfl
  · intro hready hcap0
    rw [hcap]
    unfold capInitializeBody
    rw [hready, if_neg (by decide : ¬(true = false))]
    dsimp only
    unfold initializeGraphicsCapture
    rw [initializeGraphicsCaptureBody_noDevice env _ hcap0]
    exact ⟨(initializeVisualTree_session env st).1,
           (initializeVisualTree_session env st).2⟩
  · intro hready h1 h2 h3 h4 h5 h6 h7 h8
    rw [hcap]
    unfold capInitializeBody
    rw [hready, if_neg (by decide : ¬(true = false))]
    dsimp only
    unfold initializeGraphicsCapture
    rw [initializeGraphicsCaptureBody_startThrow env _ h1 h2 h3 h4 h5 h6 h7 h8]
    exact ⟨rfl, (initializeVisualTree_session env st).2⟩

/-- Witness for captureInitializeSwallowsFailures: with a ready WebView
and a StartCapture call that throws, the session objects are stored but
capture never starts. -/
theorem captureInitializeSwallowsFailures_witness :
    (capInitialize
        { webViewReady := true, vtPreconditionsOk := true, vtThrows := false,
          captureDeviceOk := true, dxgiOk := true, winrtDeviceOk := true,
          hwndOk := true, captureItemOk := true, framePoolThrows := false,
          sessionThrows := false, startThrows := true }
        CapState.init).2.session = true
    ∧ (capInitialize
        { webViewReady := true, vtPreconditionsOk := true, vtThrows := false,
          captureDeviceOk := true, dxgiOk := true, winrtDeviceOk := true,
          hwndOk := true, captureItemOk := true, framePoolThrows := false,
          sessionThrows := false, startThrows := true }
        CapState.init).2.sessionStarted = CapState.init.sessionStarted :=
  (captureInitializeSwallowsFailures
    { webViewReady := true, vtPreconditionsOk := true, vtThrows := false,
      captureDeviceOk := true, dxgiOk := true, winrtDeviceOk := true,
      hwndOk := true, captureItemOk := true, framePoolThrows := false,
      sessionThrows := false, startThrows := true }
    CapState.init).2.2.2 rfl rfl rfl rfl rfl rfl rfl rfl rfl

/-- CreateSharedTexture never touches the wrap cache. -/
theorem d3d12Create_wrapped (st : D3D12State) (w h : Nat)
    (outValid allocOk : Bool) :
    (d3d12CreateSharedTexture st w h outValid allocOk).2.2.wrappedResources
      = st.wrappedResources := by
  unfold d3d12CreateSharedTexture
  split_ifs <;> rfl

/-- Claim C2: for a resource already in the wrap cache, when the cached
wrapper's dimensions equal the resource's current descriptor dimensions
GetOrCreateWrappedResource returns the identical cached wrapper with the
state unchanged — so a second call returns the very same wrapper — and
when they differ it discards the cached wrapper and, the D3D11On12 device
being present and CreateWrappedResource succeeding, returns a newly built
wrapper now stored in the cache in the old one's place. -/
theorem getOrCreateCacheReuseAndInvalidate
    (st : D3D12State) (ptr : Nat) (cur : TexDesc) (w : Wrapped)
    (wrapOk : Bool)
    (hcache : lookupKey ptr st.wrappedResources = some w)
    (hfresh : ∀ p ∈ st.wrappedResources, p.2.id < st.nextWrapId) :
    ((w.width = cur.width ∧ w.height = cur.height) →
       GetOrCreateWrappedResource wrapOk st ptr cur = (some w, st, [])
       ∧ GetOrCreateWrappedResource wrapOk
           (GetOrCreateWrappedResource wrapOk st ptr cur).2.1 ptr cur
         = (some w, st, []))
    ∧ ((w.width ≠ cur.width ∨ w.height ≠ cur.height) →
        st.d3d11On12Device = true → wrapOk = true →
        ∃ w2 st2 ops,
          GetOrCreateWrappedResource wrapOk st ptr cur = (some w2, st2, ops)
          ∧ w2 ≠ w
          ∧ lookupKey ptr st2.wrappedResources = some w2
          ∧ (ptr, w) ∉ st2.wrappedResources) := by
  constructor
  · intro hdim
    have heq : GetOrCreateWrappedResource wrapOk st ptr cur
        = (some w, st, []) := by
      unfold GetOrCreateWrappedResource
      rw [hcache]
      dsimp only
      rw [if_neg (by push_neg; exact hdim)]
    exact ⟨heq, by rw [heq]; exact heq⟩
  · intro hdim h11 hok
    subst hok
    have hid : w.id < st.nextWrapId := hfresh (ptr, w) (lookupKey_mem hcache)
    refine ⟨⟨st.nextWrapId, cur.width, cur.height⟩,
      { st with
        wrappedResources :=
          insertKey ptr ⟨st.nextWrapId, cur.width, cur.height⟩
            (eraseKey ptr st.wrappedResources),
        nextWrapId := st.nextWrapId + 1 },
      [GpuOp.createWrapped st.nextWrapId], ?_, ?_, ?_, ?_⟩
    · unfold GetOrCreateWrappedResource
      rw [hcache]
      dsimp only
      rw [if_pos hdim]
      exact buildWrapped_success h11
    · intro hEq
      rw [← hEq] at hid
      exact absurd hid (by simp)
    · exact lookupKey_insertKey ptr _ _
    · intro hmem
      rw [insertKey] at hmem
      rcases List.mem_cons.mp hmem with hhd | htl
      · have hw : w = ⟨st.nextWrapId, cur.width, cur.height⟩ := by
          injection hhd
        rw [hw] at hid
        simp at hid
      · exact absurd rfl (key_ne_of_mem_eraseKey (mem_of_mem_eraseKey htl))

/-- Witness for getOrCreateCacheReuseAndInvalidate: a cache holding one
wrapper of matching dimensions hands the same wrapper back unchanged. -/
theorem getOrCreateCacheReuseAndInvalidate_witness :
    GetOrCreateWrappedResource true
        { D3D12State.init with
          d3d11On12Device := true,
          wrappedResources := [(1, ⟨5, 800, 600⟩)], nextWrapId := 6 }
        1 ⟨800, 600⟩
      = (some ⟨5, 800, 600⟩,
         { D3D12State.init with
           d3d11On12Device := true,
           wrappedResources := [(1, ⟨5, 800, 600⟩)], nextWrapId := 6 },
         []) := by
  have h := getOrCreateCacheReuseAndInvalidate
    { D3D12State.init with
      d3d11On12Device := true,
      wrappedResources := [(1, ⟨5, 800, 600⟩)], nextWrapId := 6 }
    1 ⟨800, 600⟩ ⟨5, 800, 600⟩ true (by decide) (by decide)
  exact (h.1 ⟨rfl, rfl⟩).1

/-- Claim C9: the explicit backend's wrap cache holds at most one wrapper
per texture — key uniqueness of the cache is preserved by wrapper
lookup/creation, texture destruction, texture creation, resize, the
captured-frame copy, and device release — DestroySharedTexture removes the
destroyed texture's cached wrapper, and a stale wrapper is never handed
out: any wrapper returned carries exactly the resource's current
descriptor dimensions. -/
theorem wrapCacheInvariant (st : D3D12State) (ptr wd ht : Nat)
    (cur dstCur : TexDesc) (wrapOk allocOk outValid flip : Bool)
    (cenv : CopyEnv) (src : Option TexDesc) (dstPtr : Option Nat)
    (hnd : KeysNodup st.wrappedResources) :
    KeysNodup
        (GetOrCreateWrappedResource wrapOk st ptr cur).2.1.wrappedResources
    ∧ KeysNodup (d3d12DestroySharedTexture st ptr).wrappedResources
    ∧ KeysNodup
        (d3d12CreateSharedTexture st wd ht outValid
          allocOk).2.2.wrappedResources
    ∧ KeysNodup
        (d3d12ResizeSharedTexture st ptr wd ht outValid
          allocOk).2.2.wrappedResources
    ∧ KeysNodup
        (d3d12CopyCapturedTextureToUnityTexture cenv st src dstPtr dstCur
          flip).1.wrappedResources
    ∧ KeysNodup (d3d12ReleaseResources st).wrappedResources
    ∧ (ptr ≠ 0 →
        lookupKey ptr (d3d12DestroySharedTexture st ptr).wrappedResources
          = none)
    ∧ (∀ w2 st2 ops,
        GetOrCreateWrappedResource wrapOk st ptr cur = (some w2, st2, ops) →
        w2.width = cur.width ∧ w2.height = cur.height) := by
  refine ⟨getOrCreate_keysNodup hnd, ?_, ?_, ?_, ?_, ?_, ?_, ?_⟩
  · unfold d3d12DestroySharedTexture
    split_ifs
    · exact hnd
    · exact keysNodup_eraseKey hnd
  · rw [KeysNodup, d3d12Create_wrapped]
    exact hnd
  · unfold d3d12ResizeSharedTexture
    split_ifs
    · exact hnd
    · rw [KeysNodup, d3d12Create_wrapped]
      unfold d3d12DestroySharedTexture
      split_ifs
      · rw [(d3d12WaitForGPU_fields st).2.2.2]
        exact hnd
      · dsimp only
        rw [(d3d12WaitForGPU_fields st).2.2.2]
        exact keysNodup_eraseKey hnd
  · rcases src with _ | s <;> rcases dstPtr with _ | dpv <;>
      unfold d3d12CopyCapturedTextureToUnityTexture <;> dsimp only
    · exact hnd
    · exact hnd
    · exact hnd
    · rcases hg : GetOrCreateWrappedResource cenv.wrapOk st dpv dstCur
        with ⟨ow, st1, ops⟩
      have hn1 := @getOrCreate_keysNodup cenv.wrapOk st dpv dstCur hnd
      rw [hg] at hn1
      by_cases hmis : s.width ≠ dstCur.width ∨ s.height ≠ dstCur.height
      · rw [if_pos hmis]
        exact hnd
      · rw [if_neg hmis]
        rcases ow with _ | w2
        · exact hn1
        · dsimp only
          split_ifs <;> exact hn1
  · exact List.nodup_nil
  · intro hp0
    unfold d3d12DestroySharedTexture
    rw [if_neg hp0]
    exact lookupKey_eraseKey ptr _
  · intro w2 st2 ops hg
    exact getOrCreate_dims hg

/-- Witness for wrapCacheInvariant at a concrete one-entry cache. -/
theorem wrapCacheInvariant_witness :
    lookupKey 1
      (d3d12DestroySharedTexture
        { D3D12State.init with
          d3d11On12Device := true,
          textures := [(1, ⟨800, 600⟩)],
          wrappedResources := [(1, ⟨5, 800, 600⟩)], nextWrapId := 6 }
        1).wrappedResources = none := by
  have h := wrapCacheInvariant
    { D3D12State.init with
      d3d11On12Device := true,
      textures := [(1, ⟨800, 600⟩)],
      wrappedResources := [(1, ⟨5, 800, 600⟩)], nextWrapId := 6 }
    1 800 600 ⟨800, 600⟩ ⟨800, 600⟩ true true true true ⟨true, true, true⟩
    (some ⟨800, 600⟩) (some 1) (by simp [KeysNodup])
  exact h.2.2.2.2.2.2.1 (by decide)

/-- Claim C5: for equal-sized surfaces of height H, the legacy copy with
no flip is one whole-resource copy and with flip copies source row
H-1-y into destination row y for each y; the explicit backend's
CPU-mediated copy issues its per-row updates with the same reverse-row
convention. -/
theorem copyFlipRowConvention (W H : Nat) (st : D3D12State) (dp : Nat)
    (h11on12 : st.d3d11On12Device = true) :
    d3d11CopyCapturedTextureToUnityTexture true (some ⟨W, H⟩) (some ⟨W, H⟩)
        false = [GpuOp.copyResource]
    ∧ d3d11CopyCapturedTextureToUnityTexture true (some ⟨W, H⟩) (some ⟨W, H⟩)
        true = (List.range H).map (fun y => GpuOp.copyRow (H - 1 - y) y)
    ∧ ∃ wops,
        (∀ op ∈ wops, ∃ i, op = GpuOp.createWrapped i)
        ∧ (d3d12CopyCapturedTextureToUnityTexture ⟨true, true, true⟩ st
              (some ⟨W, H⟩) (some dp) ⟨W, H⟩ true).2
          = wops
            ++ [GpuOp.createStaging, GpuOp.copyToStaging, GpuOp.mapStaging,
                GpuOp.acquireWrapped]
            ++ (List.range H).map (fun y => GpuOp.updateRow (H - 1 - y) y)
            ++ [GpuOp.unmapStaging, GpuOp.releaseWrapped, GpuOp.flush] := by
  refine ⟨?_, ?_, ?_⟩
  · simp [d3d11CopyCapturedTextureToUnityTexture]
  · simp [d3d11CopyCapturedTextureToUnityTexture]
  · obtain ⟨w2, st2, ops, hg, hw, hh, hops⟩ :=
      @getOrCreate_success st dp ⟨W, H⟩ h11on12
    refine ⟨ops, hops, ?_⟩
    unfold d3d12CopyCapturedTextureToUnityTexture
    dsimp only
    rw [if_neg (by simp), hg]
    dsimp only
    rw [if_neg (by rw [hw, hh]; simp), if_neg (by simp),
      if_neg (by simp), if_pos rfl, hh]
    simp

/-- Witness for copyFlipRowConvention at 3×2 surfaces. -/
theorem copyFlipRowConvention_witness :
    d3d11CopyCapturedTextureToUnityTexture true (some ⟨3, 2⟩) (some ⟨3, 2⟩)
        true = [GpuOp.copyRow 1 0, GpuOp.copyRow 0 1] := by
  have h := copyFlipRowConvention 3 2
    { D3D12State.init with d3d11On12Device := true } 1 rfl
  rw [h.2.1]
  rfl

/-- Claim C4 (counterexample): on a fresh explicit backend, failing the
capture-device step (DXGI factory creation fails) aborts initialization
after the interop and capture steps — yet IsInitialized reports true, not
false, because the interop device was already created. -/
theorem initLaterStepFailureStillReportsInitialized :
    (d3d12ProcessDeviceEventInitialize
        { D3D12Env.allOk with dxgiFactoryOk := false } D3D12State.init).2
      = [InitStep.interop, InitStep.capture]
    ∧ d3d12IsInitialized
        (d3d12ProcessDeviceEventInitialize
          { D3D12Env.allOk with dxgiFactoryOk := false } D3D12State.init).1
      = true := by
  constructor <;> rfl

/-- Claim C4 (amended): explicit-backend initialization attempts its four
steps in the strict order interop, capture, composition, fence (the step
trace is always a prefix of that sequence); a failed entry guard attempts
nothing, a failed interop step prevents the capture step and everything
after it, a failed capture step prevents the composition and fence steps,
and a failed composition step prevents the fence step.  However the
backend is reported initialized exactly when the host device and queue
were bound and the D3D11On12 device-creation call succeeded — IsInitialized
ignores the later steps, and CreateSharedTexture still succeeds after a
late step failure.  The twelve booleans are the fields of the
initialization environment, in declaration order. -/
theorem d3d12InitOrderAndAbort : ∀ a b c d e f g h i j k l : Bool,
    (d3d12ProcessDeviceEventInitialize ⟨a, b, c, d, e, f, g, h, i, j, k, l⟩
        D3D12State.init).2
      ∈ [([] : List InitStep), [InitStep.interop],
         [InitStep.interop, InitStep.capture],
         [InitStep.interop, InitStep.capture, InitStep.composition],
         [InitStep.interop, InitStep.capture, InitStep.composition,
          InitStep.fence]]
    ∧ d3d12IsInitialized
        (d3d12ProcessDeviceEventInitialize ⟨a, b, c, d, e, f, g, h, i, j, k, l⟩
          D3D12State.init).1
      = (a && b && c && d && e)
    ∧ ((a && b && c && d) = false →
        (d3d12ProcessDeviceEventInitialize ⟨a, b, c, d, e, f, g, h, i, j, k, l⟩
          D3D12State.init).2 = [])
    ∧ ((e = false ∨ f = false) →
        InitStep.capture ∉
          (d3d12ProcessDeviceEventInitialize
            ⟨a, b, c, d, e, f, g, h, i, j, k, l⟩ D3D12State.init).2
        ∧ InitStep.composition ∉
          (d3d12ProcessDeviceEventInitialize
            ⟨a, b, c, d, e, f, g, h, i, j, k, l⟩ D3D12State.init).2
        ∧ InitStep.fence ∉
          (d3d12ProcessDeviceEventInitialize
            ⟨a, b, c, d, e, f, g, h, i, j, k, l⟩ D3D12State.init).2)
    ∧ ((g = false ∨ h = false) →
        InitStep.composition ∉
          (d3d12ProcessDeviceEventInitialize
            ⟨a, b, c, d, e, f, g, h, i, j, k, l⟩ D3D12State.init).2
        ∧ InitStep.fence ∉
          (d3d12ProcessDeviceEventInitialize
            ⟨a, b, c, d, e, f, g, h, i, j, k, l⟩ D3D12State.init).2)
    ∧ ((i = false ∨ j = false) →
        InitStep.fence ∉
          (d3d12ProcessDeviceEventInitialize
            ⟨a, b, c, d, e, f, g, h, i, j, k, l⟩ D3D12State.init).2)
    ∧ ((a && b && c && d) = true →
        (d3d12CreateSharedTexture
          (d3d12ProcessDeviceEventInitialize
            ⟨a, b, c, d, e, f, g, h, i, j, k, l⟩ D3D12State.init).1
          800 600 true true).1 = Result.Success) := by
  decide

end WebViewToolkit
